import Mathlib

/-!
Verification development for the MCP server template of this repository.

The tool-invocation core lives in `src/PROMPT.md` as the Python template of
the MCP server (`_call_tool_request`, `_load_widget_html`, the metadata
helpers, the Pydantic input model `MyToolInput`).  The widget-side cart
logic is in the delivery-quick widget (`handleAddToCart`,
`handleRemoveFromCart`).  This file gives a shallow embedding of those
functions and proves properties about them.

Modelling decisions:
 - JSON values are a small inductive `JsonVal`; argument maps, structured
   content and widget-state documents are association lists over it.
 - The handler `_fetch_from_api` is a parameter of the dispatcher; a raised
   Python exception is the `Except.error` branch of its result, tagged by
   whether it is an `httpx.HTTPError` or a generic `Exception`.
 - `datetime.now().isoformat()` is a `now : String` parameter.
 - A `CallToolResult` whose `content` list holds exactly one `TextContent`
   is modelled with a single `text` field.
-/

/-- JSON-like values exchanged on the wire. -/
inductive JsonVal where
  | str (s : String)
  | num (n : Int)
  | boolean (b : Bool)
  | arr (elems : List JsonVal)
  | obj (fields : List (String × JsonVal))
  | null

/-- Association-list lookup on a JSON object / argument map
(`dict.get` / JS property access). -/
def lookupField (doc : List (String × JsonVal)) (k : String) : Option JsonVal :=
  (doc.find? (fun p => p.1 == k)).map (fun p => p.2)

/-- One Pydantic validation violation: the location (field name) and the
message, as produced by `ValidationError.errors()`. -/
structure ValError where
  loc : String
  msg : String
deriving DecidableEq, Repr

/-- The validated input of the template tool, from the Pydantic model
`MyToolInput` (`query : str` required, `limit : int` default 10,
`extra="forbid"`). -/
structure MyToolInput where
  query : String
  limit : Int
deriving DecidableEq, Repr

/-- Violations for the required `query : str` field. -/
def queryFieldErrors (args : List (String × JsonVal)) : List ValError :=
  match lookupField args "query" with
  | none => [⟨"query", "Field required"⟩]
  | some (JsonVal.str _) => []
  | some _ => [⟨"query", "Input should be a valid string"⟩]

/-- Violations for the optional `limit : int` field. -/
def limitFieldErrors (args : List (String × JsonVal)) : List ValError :=
  match lookupField args "limit" with
  | none => []
  | some (JsonVal.num _) => []
  | some _ => [⟨"limit", "Input should be a valid integer"⟩]

/-- Violations for undeclared fields (`model_config` has `extra="forbid"`:
the schema is closed, `additionalProperties: False`). -/
def extraFieldErrors (args : List (String × JsonVal)) : List ValError :=
  (args.filter (fun p => !(p.1 == "query" || p.1 == "limit"))).map
    (fun p => ⟨p.1, "Extra inputs are not permitted"⟩)

/-- `MyToolInput.model_validate(arguments)`: collect all violations; on any
violation raise `ValidationError` with the list, otherwise build the typed
payload (missing `limit` takes the declared default 10). -/
def MyToolInput.modelValidate (args : List (String × JsonVal)) :
    Except (List ValError) MyToolInput :=
  let errs := queryFieldErrors args ++ limitFieldErrors args ++ extraFieldErrors args
  if errs.isEmpty then
    match lookupField args "query", lookupField args "limit" with
    | some (JsonVal.str q), some (JsonVal.num n) => .ok ⟨q, n⟩
    | some (JsonVal.str q), _ => .ok ⟨q, 10⟩
    | _, _ => .error errs
  else .error errs

/-- The `MyWidget` frozen dataclass of the template server. -/
structure MyWidget where
  identifier : String
  title : String
  template_uri : String
  invoking : String
  invoked : String
  html : String
  response_text : String
deriving DecidableEq, Repr

/-- An exception escaping the handler: either an `httpx.HTTPError` or any
other `Exception`, carrying its `str(exc)` text. -/
inductive HandlerExc where
  | http (msg : String)
  | other (msg : String)
deriving DecidableEq, Repr

/-- A metadata value: the `_meta` dictionaries hold strings and one boolean. -/
inductive MetaVal where
  | s (v : String)
  | b (v : Bool)
deriving DecidableEq, Repr

/-- `_tool_meta`: metadata attached to tool/resource listings. -/
def toolMeta (w : MyWidget) : List (String × MetaVal) :=
  [("openai/outputTemplate", MetaVal.s w.template_uri),
   ("openai/toolInvocation/invoking", MetaVal.s w.invoking),
   ("openai/toolInvocation/invoked", MetaVal.s w.invoked),
   ("openai/widgetAccessible", MetaVal.b true)]

/-- `_tool_invocation_meta`: metadata attached to a call-tool result. -/
def toolInvocationMeta (w : MyWidget) : List (String × String) :=
  [("openai/toolInvocation/invoking", w.invoking),
   ("openai/toolInvocation/invoked", w.invoked)]

/-- The modelled `CallToolResult`: one text content, optional structured
content, the `_meta` map, and the `isError` flag (default false). -/
structure CallToolResult where
  text : String
  structuredContent : Option JsonVal
  meta : List (String × String)
  isError : Bool

/-- Rendering of `exc.errors()` inside the f-string
`f"Validation error: ..."`; each violation appears with its field name. -/
def errorsText (errs : List ValError) : String :=
  String.intercalate "; " (errs.map (fun e => e.loc ++ ": " ++ e.msg))

/-- The result returned when input validation fails. -/
def validationFailure (errs : List ValError) : CallToolResult :=
  { text := "Validation error: " ++ errorsText errs
    structuredContent := none
    meta := []
    isError := true }

/-- The caller-visible text for an exception caught from the handler:
`f"API error: ..."` for `httpx.HTTPError`, `f"Error: ..."` otherwise. -/
def handlerFailureText : HandlerExc → String
  | .http m => "API error: " ++ m
  | .other m => "Error: " ++ m

/-- The `structured_data` dict built on handler success: the handler items
verbatim, their count, and a metadata object with the query and timestamp. -/
def structuredData (items : List JsonVal) (query now : String) : JsonVal :=
  JsonVal.obj
    [("items", JsonVal.arr items),
     ("total_count", JsonVal.num items.length),
     ("metadata", JsonVal.obj
        [("query", JsonVal.str query), ("timestamp", JsonVal.str now)])]

/-- The summary text `f"Found ... items for ..."` of a successful call,
with the query quoted as in the source f-string. -/
def summaryText (n : Nat) (query : String) : String :=
  "Found " ++ toString n ++ " items for '" ++ query ++ "'"

/-- `_call_tool_request`: resolve the tool in `WIDGETS_BY_ID` (identifiers
are unique, so first match equals dict lookup), validate the arguments,
run the handler, and package the outcome.  `fetchFromApi` is the handler
`_fetch_from_api`; `now` is the clock reading used for the timestamp. -/
def callToolRequest (widgets : List MyWidget)
    (fetchFromApi : String → Int → Except HandlerExc (List JsonVal))
    (now : String) (name : String)
    (arguments : List (String × JsonVal)) : CallToolResult :=
  match widgets.find? (fun w => w.identifier == name) with
  | none =>
      { text := "Unknown tool: " ++ name
        structuredContent := none
        meta := []
        isError := true }
  | some widget =>
    match MyToolInput.modelValidate arguments with
    | .error errs => validationFailure errs
    | .ok payload =>
      match fetchFromApi payload.query payload.limit with
      | .error exc =>
          { text := handlerFailureText exc
            structuredContent := none
            meta := []
            isError := true }
      | .ok items =>
          { text := summaryText items.length payload.query
            structuredContent := some (structuredData items payload.query now)
            meta := toolInvocationMeta widget
            isError := false }

/-- Required fields of the declared output record `ItemData`
(the Pydantic output model). -/
def itemDataRequiredFields : List String :=
  ["id", "name", "description", "image_url", "rating"]

/-- A concrete registered widget, instantiating the template placeholders. -/
def sampleWidget : MyWidget :=
  { identifier := "my-tool"
    title := "My Tool"
    template_uri := "ui://widget/my-widget.html"
    invoking := "Loading..."
    invoked := "Loaded successfully"
    html := "<div></div>"
    response_text := "Successfully loaded data" }

/-! Helper lemmas on the dispatcher branches, shared by several theorems. -/

theorem callToolRequest_of_validation_error {widgets : List MyWidget}
    {w : MyWidget} {name : String} {args : List (String × JsonVal)}
    {errs : List ValError}
    (hw : widgets.find? (fun x => x.identifier == name) = some w)
    (hv : MyToolInput.modelValidate args = .error errs)
    (fetchFromApi : String → Int → Except HandlerExc (List JsonVal))
    (now : String) :
    callToolRequest widgets fetchFromApi now name args = validationFailure errs := by
  simp [callToolRequest, hw, hv]

theorem callToolRequest_of_handler_error {widgets : List MyWidget}
    {w : MyWidget} {name : String} {args : List (String × JsonVal)}
    {payload : MyToolInput} {exc : HandlerExc}
    {fetchFromApi : String → Int → Except HandlerExc (List JsonVal)}
    (hw : widgets.find? (fun x => x.identifier == name) = some w)
    (hv : MyToolInput.modelValidate args = .ok payload)
    (hexc : fetchFromApi payload.query payload.limit = .error exc)
    (now : String) :
    callToolRequest widgets fetchFromApi now name args =
      { text := handlerFailureText exc
        structuredContent := none
        meta := []
        isError := true } := by
  simp [callToolRequest, hw, hv, hexc]

theorem callToolRequest_of_handler_ok {widgets : List MyWidget}
    {w : MyWidget} {name : String} {args : List (String × JsonVal)}
    {payload : MyToolInput} {items : List JsonVal}
    {fetchFromApi : String → Int → Except HandlerExc (List JsonVal)}
    (hw : widgets.find? (fun x => x.identifier == name) = some w)
    (hv : MyToolInput.modelValidate args = .ok payload)
    (hok : fetchFromApi payload.query payload.limit = .ok items)
    (now : String) :
    callToolRequest widgets fetchFromApi now name args =
      { text := summaryText items.length payload.query
        structuredContent := some (structuredData items payload.query now)
        meta := toolInvocationMeta w
        isError := false } := by
  simp [callToolRequest, hw, hv, hok]

/-- Claim C1: invoking a registered tool with an argument map that omits the
required field `query` fails validation with a violation naming `query`; an
argument map holding a field not declared in the input schema is likewise
rejected (closed schema) with a violation naming that field; whenever
validation fails the dispatcher returns the validation Failure without
running the handler (the result is the same for every handler and clock). -/
theorem call_tool_input_validation
    (widgets : List MyWidget) (w : MyWidget) (name : String)
    (args : List (String × JsonVal))
    (hw : widgets.find? (fun x => x.identifier == name) = some w) :
    (∀ errs, MyToolInput.modelValidate args = .error errs →
       ∀ fetchFromApi now,
         callToolRequest widgets fetchFromApi now name args = validationFailure errs) ∧
    (lookupField args "query" = none →
       ∃ errs, MyToolInput.modelValidate args = .error errs ∧
         "query" ∈ errs.map ValError.loc) ∧
    (∀ k v, (k, v) ∈ args → k ≠ "query" → k ≠ "limit" →
       ∃ errs, MyToolInput.modelValidate args = .error errs ∧
         k ∈ errs.map ValError.loc) := by
  refine ⟨fun errs hv f now => callToolRequest_of_validation_error hw hv f now, ?_, ?_⟩
  · intro hq
    have hqe : queryFieldErrors args = [⟨"query", "Field required"⟩] := by
      simp [queryFieldErrors, hq]
    refine ⟨queryFieldErrors args ++ limitFieldErrors args ++ extraFieldErrors args, ?_, ?_⟩
    · simp [MyToolInput.modelValidate, hqe]
    · simp [hqe]
  · intro k v hkv hk1 hk2
    have hmem : (⟨k, "Extra inputs are not permitted"⟩ : ValError) ∈ extraFieldErrors args := by
      simp only [extraFieldErrors, List.mem_map, List.mem_filter]
      exact ⟨(k, v), ⟨hkv, by simp [hk1, hk2]⟩, rfl⟩
    have hmem' :
        (⟨k, "Extra inputs are not permitted"⟩ : ValError) ∈
          queryFieldErrors args ++ limitFieldErrors args ++ extraFieldErrors args :=
      List.mem_append_right _ hmem
    have hne : (queryFieldErrors args ++ limitFieldErrors args ++ extraFieldErrors args) ≠ [] :=
      List.ne_nil_of_mem hmem'
    refine ⟨queryFieldErrors args ++ limitFieldErrors args ++ extraFieldErrors args, ?_, ?_⟩
    · simp only [MyToolInput.modelValidate]
      rw [if_neg (by simpa [List.isEmpty_iff] using hne)]
    · exact List.mem_map.mpr ⟨_, hmem', rfl⟩

/-- Witness for C1 at the empty argument map and at a map with an
undeclared field, against the concrete sample registry. -/
theorem call_tool_input_validation_witness :
    (∃ errs, MyToolInput.modelValidate [] = .error errs ∧
       "query" ∈ errs.map ValError.loc) ∧
    (∃ errs,
       MyToolInput.modelValidate
         [("query", JsonVal.str "hi"), ("bogus", JsonVal.num 1)] = .error errs ∧
       "bogus" ∈ errs.map ValError.loc) :=
  ⟨(call_tool_input_validation [sampleWidget] sampleWidget "my-tool" [] (by rfl)).2.1 rfl,
   (call_tool_input_validation [sampleWidget] sampleWidget "my-tool"
       [("query", JsonVal.str "hi"), ("bogus", JsonVal.num 1)] (by rfl)).2.2
     "bogus" (JsonVal.num 1) (by simp) (by decide) (by decide)⟩

/-- Claim C2: an invocation whose tool identifier is not in the registry
returns the UnknownTool failure, for every handler and clock alike — so no
handler is executed and no handler side effect can occur. -/
theorem call_tool_unknown_tool
    (widgets : List MyWidget) (name : String) (args : List (String × JsonVal))
    (hw : widgets.find? (fun x => x.identifier == name) = none) :
    ∀ fetchFromApi now,
      callToolRequest widgets fetchFromApi now name args =
        { text := "Unknown tool: " ++ name
          structuredContent := none
          meta := []
          isError := true } := by
  intro f now
  simp [callToolRequest, hw]

/-- Witness for C2: invoking an unregistered identifier on the sample
registry yields the UnknownTool failure. -/
theorem call_tool_unknown_tool_witness :
    callToolRequest [sampleWidget] (fun _ _ => .ok []) "t0" "no-such-tool" [] =
      { text := "Unknown tool: no-such-tool"
        structuredContent := none
        meta := []
        isError := true } :=
  call_tool_unknown_tool [sampleWidget] "no-such-tool" [] (by rfl) _ _

/-- Claim C4: an exception raised by the handler is caught and converted to
a Failure result carrying a message; the dispatcher is a total function
into `CallToolResult`, so no handler exception propagates past it. -/
theorem call_tool_handler_exception
    (widgets : List MyWidget) (w : MyWidget) (name : String)
    (args : List (String × JsonVal)) (payload : MyToolInput) (exc : HandlerExc)
    (fetchFromApi : String → Int → Except HandlerExc (List JsonVal)) (now : String)
    (hw : widgets.find? (fun x => x.identifier == name) = some w)
    (hv : MyToolInput.modelValidate args = .ok payload)
    (hexc : fetchFromApi payload.query payload.limit = .error exc) :
    callToolRequest widgets fetchFromApi now name args =
      { text := handlerFailureText exc
        structuredContent := none
        meta := []
        isError := true } :=
  callToolRequest_of_handler_error hw hv hexc now

/-- Witness for C4: a handler raising a generic exception on the sample
registry produces the caught Failure result. -/
theorem call_tool_handler_exception_witness :
    callToolRequest [sampleWidget] (fun _ _ => .error (HandlerExc.other "boom"))
        "t0" "my-tool" [("query", JsonVal.str "hi")] =
      { text := "Error: boom"
        structuredContent := none
        meta := []
        isError := true } :=
  call_tool_handler_exception [sampleWidget] sampleWidget "my-tool"
    [("query", JsonVal.str "hi")] ⟨"hi", 10⟩ (HandlerExc.other "boom")
    (fun _ _ => .error (HandlerExc.other "boom")) "t0" (by rfl) (by rfl) (by rfl)

/-- Counterexample to C3: a handler that succeeds with a record holding only
`id` — missing the declared required output fields `name`, `description`,
`image_url`, `rating` — does not trigger any OutputSchemaError: the
dispatcher returns a non-error result whose structured content delivers the
malformed record verbatim to the caller. -/
theorem call_tool_no_output_validation_cex :
    (itemDataRequiredFields.all
        (fun f => ([("id", JsonVal.str "item-1")] : List (String × JsonVal)).any
          (fun p => p.1 == f)) = false) ∧
    (callToolRequest [sampleWidget]
        (fun _ _ => .ok [JsonVal.obj [("id", JsonVal.str "item-1")]])
        "2024-01-01T00:00:00" "my-tool" [("query", JsonVal.str "hi")]).isError = false ∧
    (callToolRequest [sampleWidget]
        (fun _ _ => .ok [JsonVal.obj [("id", JsonVal.str "item-1")]])
        "2024-01-01T00:00:00" "my-tool" [("query", JsonVal.str "hi")]).structuredContent =
      some (JsonVal.obj
        [("items", JsonVal.arr [JsonVal.obj [("id", JsonVal.str "item-1")]]),
         ("total_count", JsonVal.num 1),
         ("metadata", JsonVal.obj
            [("query", JsonVal.str "hi"),
             ("timestamp", JsonVal.str "2024-01-01T00:00:00")])]) :=
  ⟨rfl, rfl, rfl⟩

/-- Claim C3 as amended: the dispatcher performs no output-schema
validation.  On handler success it packages whatever items the handler
returned verbatim as structured content in a non-error result — also when a
record misses declared required output fields — so the code has no
OutputSchemaError outcome at all. -/
theorem call_tool_success_passthrough
    (widgets : List MyWidget) (w : MyWidget) (name : String)
    (args : List (String × JsonVal)) (payload : MyToolInput)
    (items : List JsonVal)
    (fetchFromApi : String → Int → Except HandlerExc (List JsonVal)) (now : String)
    (hw : widgets.find? (fun x => x.identifier == name) = some w)
    (hv : MyToolInput.modelValidate args = .ok payload)
    (hok : fetchFromApi payload.query payload.limit = .ok items) :
    (callToolRequest widgets fetchFromApi now name args).isError = false ∧
    (callToolRequest widgets fetchFromApi now name args).structuredContent =
      some (structuredData items payload.query now) := by
  rw [callToolRequest_of_handler_ok hw hv hok now]
  exact ⟨rfl, rfl⟩

/-- Witness for the amended C3 at the malformed single-item handler. -/
theorem call_tool_success_passthrough_witness :
    (callToolRequest [sampleWidget]
        (fun _ _ => .ok [JsonVal.obj []]) "t0" "my-tool"
        [("query", JsonVal.str "hi")]).structuredContent =
      some (structuredData [JsonVal.obj []] "hi" "t0") :=
  (call_tool_success_passthrough [sampleWidget] sampleWidget "my-tool"
    [("query", JsonVal.str "hi")] ⟨"hi", 10⟩ [JsonVal.obj []]
    (fun _ _ => .ok [JsonVal.obj []]) "t0" (by rfl) (by rfl) (by rfl)).2

/-- Counterexample to C5: on a successful invocation the result metadata
holds exactly the two status strings; no entry names or carries the
widget's resource identifier (`openai/outputTemplate` appears only in the
listing metadata, not in the invocation result). -/
theorem call_tool_invocation_meta_cex :
    (callToolRequest [sampleWidget] (fun _ _ => .ok []) "t0" "my-tool"
        [("query", JsonVal.str "hi")]).meta =
      [("openai/toolInvocation/invoking", "Loading..."),
       ("openai/toolInvocation/invoked", "Loaded successfully")] ∧
    ((callToolRequest [sampleWidget] (fun _ _ => .ok []) "t0" "my-tool"
        [("query", JsonVal.str "hi")]).meta.all
      (fun p => !(p.2 == sampleWidget.template_uri)) = true) ∧
    ((callToolRequest [sampleWidget] (fun _ _ => .ok []) "t0" "my-tool"
        [("query", JsonVal.str "hi")]).meta.all
      (fun p => !(p.1 == "openai/outputTemplate")) = true) :=
  ⟨rfl, by decide, by decide⟩

/-- Claim C5 as amended: a successful invocation result carries the
structured content, the textual summary, and a metadata map holding the
tool's two status strings passed through unmodified from the
ToolDefinition; the associated resource identifier is not part of the
invocation metadata — it is carried by the listing metadata
(`_tool_meta`) instead. -/
theorem call_tool_success_meta
    (widgets : List MyWidget) (w : MyWidget) (name : String)
    (args : List (String × JsonVal)) (payload : MyToolInput)
    (items : List JsonVal)
    (fetchFromApi : String → Int → Except HandlerExc (List JsonVal)) (now : String)
    (hw : widgets.find? (fun x => x.identifier == name) = some w)
    (hv : MyToolInput.modelValidate args = .ok payload)
    (hok : fetchFromApi payload.query payload.limit = .ok items) :
    (callToolRequest widgets fetchFromApi now name args).text =
        summaryText items.length payload.query ∧
    (callToolRequest widgets fetchFromApi now name args).structuredContent.isSome = true ∧
    (callToolRequest widgets fetchFromApi now name args).meta =
      [("openai/toolInvocation/invoking", w.invoking),
       ("openai/toolInvocation/invoked", w.invoked)] ∧
    ("openai/outputTemplate", MetaVal.s w.template_uri) ∈ toolMeta w := by
  rw [callToolRequest_of_handler_ok hw hv hok now]
  exact ⟨rfl, rfl, rfl, by simp [toolMeta]⟩

/-- Witness for the amended C5 on the sample registry. -/
theorem call_tool_success_meta_witness :
    (callToolRequest [sampleWidget] (fun _ _ => .ok []) "t0" "my-tool"
        [("query", JsonVal.str "hi")]).meta =
      [("openai/toolInvocation/invoking", sampleWidget.invoking),
       ("openai/toolInvocation/invoked", sampleWidget.invoked)] :=
  (call_tool_success_meta [sampleWidget] sampleWidget "my-tool"
    [("query", JsonVal.str "hi")] ⟨"hi", 10⟩ []
    (fun _ _ => .ok []) "t0" (by rfl) (by rfl) (by rfl)).2.2.1

/-- Counterexample to C9: two invocations differing only in the internal
text of the handler's exception produce different caller-visible messages,
each embedding the internal text verbatim after the fixed prefix — the
message is not a generic wrapped one. -/
theorem handler_error_leak_cex :
    (callToolRequest [sampleWidget]
        (fun _ _ => .error (HandlerExc.other "password is hunter2")) "t0" "my-tool"
        [("query", JsonVal.str "hi")]).text = "Error: password is hunter2" ∧
    (callToolRequest [sampleWidget]
        (fun _ _ => .error (HandlerExc.other "disk full")) "t0" "my-tool"
        [("query", JsonVal.str "hi")]).text = "Error: disk full" ∧
    (callToolRequest [sampleWidget]
        (fun _ _ => .error (HandlerExc.other "password is hunter2")) "t0" "my-tool"
        [("query", JsonVal.str "hi")]).text ≠
      (callToolRequest [sampleWidget]
        (fun _ _ => .error (HandlerExc.other "disk full")) "t0" "my-tool"
        [("query", JsonVal.str "hi")]).text :=
  ⟨rfl, rfl, by decide⟩

/-- Claim C9 as amended: the Failure message for a caught handler exception
embeds the handler's internal exception text verbatim after a fixed prefix
(`Error: `, or `API error: ` for HTTP errors); no generic message or
correlation id replaces it, so the caller-visible message varies with the
internal detail. -/
theorem handler_error_message_verbatim
    (widgets : List MyWidget) (w : MyWidget) (name : String)
    (args : List (String × JsonVal)) (payload : MyToolInput) (m : String)
    (fetchFromApi : String → Int → Except HandlerExc (List JsonVal)) (now : String)
    (hw : widgets.find? (fun x => x.identifier == name) = some w)
    (hv : MyToolInput.modelValidate args = .ok payload)
    (hexc : fetchFromApi payload.query payload.limit = .error (HandlerExc.other m)) :
    (callToolRequest widgets fetchFromApi now name args).text = "Error: " ++ m ∧
    (∀ m', handlerFailureText (HandlerExc.other m') = "Error: " ++ m') ∧
    (∀ m', handlerFailureText (HandlerExc.http m') = "API error: " ++ m') := by
  rw [callToolRequest_of_handler_error hw hv hexc now]
  exact ⟨rfl, fun _ => rfl, fun _ => rfl⟩

/-- Witness for the amended C9 at a concrete exception text. -/
theorem handler_error_message_verbatim_witness :
    (callToolRequest [sampleWidget]
        (fun _ _ => .error (HandlerExc.other "boom")) "t0" "my-tool"
        [("query", JsonVal.str "hi")]).text = "Error: " ++ "boom" :=
  (handler_error_message_verbatim [sampleWidget] sampleWidget "my-tool"
    [("query", JsonVal.str "hi")] ⟨"hi", 10⟩ "boom"
    (fun _ _ => .error (HandlerExc.other "boom")) "t0" (by rfl) (by rfl) (by rfl)).1

/-! The resource resolver `_load_widget_html` and its `@lru_cache`. -/

/-- The assets directory as the resolver sees it: its path (the search
root) and the files it holds, as filename/content pairs. -/
structure FS where
  root : String
  files : List (String × String)

/-- `path.exists()` followed by `path.read_text()`: the content stored
under a filename, when present. -/
def readFile? (fs : FS) (fname : String) : Option String :=
  (fs.files.find? (fun p => p.1 == fname)).map (fun p => p.2)

/-- Whether a filename matches the glob pattern `component-*.html`: it
starts with the base name and a dash and ends with the extension (`*`
matches any, possibly empty, run of characters). -/
def matchesGlob (component fname : String) : Bool :=
  (component ++ "-").data.isPrefixOf fname.data &&
    ".html".data.isSuffixOf fname.data

/-- The files matched by `ASSETS_DIR.glob(f"{component_name}-*.html")`. -/
def fallbackCandidates (fs : FS) (component : String) : List (String × String) :=
  fs.files.filter (fun p => matchesGlob component p.1)

/-- Code-point lexicographic comparison of character lists: how Python
compares the candidate path strings. -/
def charListLe : List Char → List Char → Bool
  | [], _ => true
  | _ :: _, [] => false
  | a :: as, b :: bs =>
      if a < b then true else if b < a then false else charListLe as bs

/-- Python's `<=` on the path strings, deciding the `sorted` order. -/
def pathLe (a b : String) : Bool := charListLe a.data b.data

/-- One step of Python's ascending `sorted` on the candidate paths,
comparing by filename. -/
def insertByName (x : String × String) :
    List (String × String) → List (String × String)
  | [] => [x]
  | y :: ys => if pathLe x.1 y.1 then x :: y :: ys else y :: insertByName x ys

/-- `sorted(...)` on the candidate list, ascending by filename. -/
def sortByName : List (String × String) → List (String × String)
  | [] => []
  | x :: xs => insertByName x (sortByName xs)

/-- The `FileNotFoundError` message, carrying the identifier and the
search root. -/
def notFoundMessage (component root : String) : String :=
  "Widget HTML for \"" ++ component ++ "\" not found in " ++ root ++
    ". Run `pnpm run build` in web/ to generate assets."

/-- `_load_widget_html` (uncached body): exact filename match first; on a
miss take the last of the sorted glob candidates; with no candidate raise
`FileNotFoundError`. -/
def loadWidgetHtml (fs : FS) (component : String) : Except String String :=
  match readFile? fs (component ++ ".html") with
  | some content => .ok content
  | none =>
    match (sortByName (fallbackCandidates fs component)).getLast? with
    | some best => .ok best.2
    | none => .error (notFoundMessage component fs.root)

theorem charListLe_total (as bs : List Char) :
    charListLe as bs = true ∨ charListLe bs as = true := by
  induction as generalizing bs with
  | nil => left; rfl
  | cons a as ih =>
      cases bs with
      | nil => right; rfl
      | cons b bs =>
          rcases lt_trichotomy a b with hab | hab | hab
          · left; simp [charListLe, hab]
          · subst hab
            rcases ih bs with h | h
            · left; simpa [charListLe, lt_irrefl] using h
            · right; simpa [charListLe, lt_irrefl] using h
          · right; simp [charListLe, hab]

theorem charListLe_trans {as bs cs : List Char}
    (h1 : charListLe as bs = true) (h2 : charListLe bs cs = true) :
    charListLe as cs = true := by
  induction as generalizing bs cs with
  | nil => rfl
  | cons a as ih =>
      cases bs with
      | nil => simp [charListLe] at h1
      | cons b bs =>
          cases cs with
          | nil => simp [charListLe] at h2
          | cons c cs =>
              by_cases hab : a < b
              · by_cases hbc : b < c
                · simp [charListLe, lt_trans hab hbc]
                · by_cases hcb : c < b
                  · simp [charListLe, hbc, hcb] at h2
                  · have hbceq : b = c := le_antisymm (le_of_not_lt hcb) (le_of_not_lt hbc)
                    subst hbceq
                    simp [charListLe, hab]
              · by_cases hba : b < a
                · simp [charListLe, hab, hba] at h1
                · have habeq : a = b := le_antisymm (le_of_not_lt hba) (le_of_not_lt hab)
                  subst habeq
                  rw [charListLe, if_neg (lt_irrefl a), if_neg (lt_irrefl a)] at h1
                  by_cases hbc : a < c
                  · simp [charListLe, hbc]
                  · by_cases hcb : c < a
                    · simp [charListLe, hbc, hcb] at h2
                    · have : a = c := le_antisymm (le_of_not_lt hcb) (le_of_not_lt hbc)
                      subst this
                      rw [charListLe, if_neg (lt_irrefl a), if_neg (lt_irrefl a)] at h2 ⊢
                      exact ih h1 h2

theorem pathLe_total (a b : String) : pathLe a b = true ∨ pathLe b a = true :=
  charListLe_total a.data b.data

theorem pathLe_trans {a b c : String}
    (h1 : pathLe a b = true) (h2 : pathLe b c = true) : pathLe a c = true :=
  charListLe_trans h1 h2

theorem mem_insertByName {x p : String × String}
    {l : List (String × String)} :
    p ∈ insertByName x l ↔ p = x ∨ p ∈ l := by
  induction l with
  | nil => simp [insertByName]
  | cons y ys ih =>
      by_cases h : pathLe x.1 y.1
      · simp [insertByName, h]
      · simp [insertByName, h, ih]
        tauto

theorem mem_sortByName {p : String × String} {l : List (String × String)} :
    p ∈ sortByName l ↔ p ∈ l := by
  induction l with
  | nil => simp [sortByName]
  | cons y ys ih => simp [sortByName, mem_insertByName, ih]

/-- Ascending order by filename, as `sorted` guarantees it. -/
def NameSorted (l : List (String × String)) : Prop :=
  l.Pairwise (fun p q => pathLe p.1 q.1 = true)

theorem pathLe_refl (a : String) : pathLe a a = true := by
  rcases pathLe_total a a with h | h <;> exact h

theorem nameSorted_insertByName {x : String × String}
    {l : List (String × String)} (h : NameSorted l) :
    NameSorted (insertByName x l) := by
  induction l with
  | nil => simp [insertByName, NameSorted]
  | cons y ys ih =>
      rcases List.pairwise_cons.mp h with ⟨hy, hys⟩
      by_cases hxy : pathLe x.1 y.1 = true
      · have hins : insertByName x (y :: ys) = x :: y :: ys := by
          simp [insertByName, hxy]
        rw [NameSorted, hins]
        refine List.pairwise_cons.mpr ⟨?_, h⟩
        intro q hq
        rcases List.mem_cons.mp hq with rfl | hq'
        · exact hxy
        · exact pathLe_trans hxy (hy q hq')
      · have hins : insertByName x (y :: ys) = y :: insertByName x ys := by
          simp [insertByName, hxy]
        rw [NameSorted, hins]
        refine List.pairwise_cons.mpr ⟨?_, ih hys⟩
        intro q hq
        rcases mem_insertByName.mp hq with rfl | hq'
        · rcases pathLe_total q.1 y.1 with h' | h'
          · exact absurd h' hxy
          · exact h'
        · exact hy q hq'

theorem nameSorted_sortByName (l : List (String × String)) :
    NameSorted (sortByName l) := by
  induction l with
  | nil => simp [sortByName, NameSorted]
  | cons y ys ih => exact nameSorted_insertByName ih

theorem le_getLast_of_nameSorted {l : List (String × String)}
    (hs : NameSorted l) (h : l ≠ []) :
    ∀ p ∈ l, pathLe p.1 (l.getLast h).1 = true := by
  induction l with
  | nil => exact absurd rfl h
  | cons y ys ih =>
      rcases List.pairwise_cons.mp hs with ⟨hy, hys⟩
      intro p hp
      cases ys with
      | nil =>
          rcases List.mem_singleton.mp hp with rfl
          exact pathLe_refl _
      | cons z zs =>
          rw [List.getLast_cons (by simp)]
          rcases List.mem_cons.mp hp with rfl | hp'
          · exact hy _ (List.getLast_mem _)
          · exact ih hys (by simp) p hp'

/-- Counterexample to C6: with all three of `widget.html`,
`widget-aaa.html` and `widget-bbb.html` present, resolving `widget` is an
exact hit on `widget.html`, so its content — not `widget-bbb.html`'s — is
returned. -/
theorem load_widget_fallback_cex :
    loadWidgetHtml
        ⟨"/app/mcp/assets",
         [("widget.html", "ROOT-CONTENT"),
          ("widget-aaa.html", "AAA-CONTENT"),
          ("widget-bbb.html", "BBB-CONTENT")]⟩ "widget" = .ok "ROOT-CONTENT" ∧
    ("ROOT-CONTENT" : String) ≠ "BBB-CONTENT" :=
  ⟨rfl, by decide⟩

/-- Claim C6 as amended: resolution tries the exact identifier first and
returns its content on a hit; on an exact miss (so `widget.html` itself
absent) it returns the content of the candidate with the lexicographically
greatest filename among those sharing the base name with a suffix; with no
candidate it fails with the error carrying the identifier and the search
root. -/
theorem load_widget_resolution (fs : FS) (component : String) :
    (∀ content, readFile? fs (component ++ ".html") = some content →
       loadWidgetHtml fs component = .ok content) ∧
    (readFile? fs (component ++ ".html") = none →
       (∀ best, (sortByName (fallbackCandidates fs component)).getLast? = some best →
          loadWidgetHtml fs component = .ok best.2 ∧
          best ∈ fallbackCandidates fs component ∧
          ∀ q ∈ fallbackCandidates fs component, pathLe q.1 best.1 = true) ∧
       (fallbackCandidates fs component = [] →
          loadWidgetHtml fs component = .error (notFoundMessage component fs.root))) := by
  refine ⟨fun content hc => by simp [loadWidgetHtml, hc], fun hmiss => ⟨?_, ?_⟩⟩
  · intro best hbest
    have hne : sortByName (fallbackCandidates fs component) ≠ [] := by
      intro hnil
      rw [hnil] at hbest
      simp at hbest
    have hlast : (sortByName (fallbackCandidates fs component)).getLast hne = best := by
      rw [List.getLast?_eq_getLast _ hne] at hbest
      exact Option.some_injective _ hbest
    refine ⟨by simp [loadWidgetHtml, hmiss, hbest], ?_, ?_⟩
    · exact mem_sortByName.mp (hlast ▸ List.getLast_mem hne)
    · intro q hq
      have := le_getLast_of_nameSorted (nameSorted_sortByName _) hne q
        (mem_sortByName.mpr hq)
      rwa [hlast] at this
  · intro hempty
    simp [loadWidgetHtml, hmiss, hempty, sortByName]

/-- Witness for the amended C6: with `widget.html` absent, resolving
`widget` picks `widget-bbb.html`, the lexicographically greatest
candidate. -/
theorem load_widget_resolution_witness :
    loadWidgetHtml
        ⟨"/app/mcp/assets",
         [("widget-aaa.html", "AAA-CONTENT"),
          ("widget-bbb.html", "BBB-CONTENT")]⟩ "widget" = .ok "BBB-CONTENT" :=
  (((load_widget_resolution
      ⟨"/app/mcp/assets",
       [("widget-aaa.html", "AAA-CONTENT"),
        ("widget-bbb.html", "BBB-CONTENT")]⟩ "widget").2 (by rfl)).1
    ("widget-bbb.html", "BBB-CONTENT") (by rfl)).1

/-- The state of the `@lru_cache(maxsize=None)` memo on `_load_widget_html`:
the mapping from argument to cached result, plus a count of how many times
the wrapped function body actually ran (the load-counter the spec calls
observable in tests). -/
structure CacheState where
  cache : List (String × String)
  loads : Nat

/-- One call of the cached `_load_widget_html`: a hit returns the cached
content untouched; a miss runs the body, counts the load, and caches the
result only when the body returns normally — `lru_cache` does not cache a
raised exception. -/
def cachedLoad (fs : FS) (component : String) (st : CacheState) :
    Except String String × CacheState :=
  match st.cache.find? (fun p => p.1 == component) with
  | some p => (.ok p.2, st)
  | none =>
    match loadWidgetHtml fs component with
    | .ok v => (.ok v, ⟨st.cache ++ [(component, v)], st.loads + 1⟩)
    | .error e => (.error e, { st with loads := st.loads + 1 })

/-- Claim C7: after a successful resolution, resolving the same identifier
again returns byte-identical content and leaves the cache state — load
counter included — untouched, so the underlying load does not run again;
a failed resolution caches nothing and fails identically on the next
call. -/
theorem cached_load_idempotent (fs : FS) (component : String) (st : CacheState) :
    (∀ v st', cachedLoad fs component st = (.ok v, st') →
       cachedLoad fs component st' = (.ok v, st')) ∧
    (∀ e st', cachedLoad fs component st = (.error e, st') →
       st'.cache = st.cache ∧
       (cachedLoad fs component st').1 = .error e) := by
  constructor
  · intro v st' h
    rcases hfind : st.cache.find? (fun p => p.1 == component) with _ | p
    · rcases hload : loadWidgetHtml fs component with e | w
      · rw [cachedLoad, hfind, hload] at h
        exact absurd (congrArg Prod.fst h) (by simp)
      · rw [cachedLoad, hfind, hload] at h
        rcases h with ⟨⟩
        have hfind' :
            (st.cache ++ [(component, v)]).find? (fun p => p.1 == component) =
              some (component, v) := by
          rw [List.find?_append, hfind]
          simp
        rw [cachedLoad, hfind']
    · rw [cachedLoad, hfind] at h
      rcases h with ⟨⟩
      rw [cachedLoad, hfind]
  · intro e st' h
    rcases hfind : st.cache.find? (fun p => p.1 == component) with _ | p
    · rcases hload : loadWidgetHtml fs component with e' | w
      · rw [cachedLoad, hfind, hload] at h
        rcases h with ⟨⟩
        refine ⟨rfl, ?_⟩
        rw [cachedLoad]
        rw [show ({ st with loads := st.loads + 1 } : CacheState).cache = st.cache from rfl,
          hfind, hload]
      · rw [cachedLoad, hfind, hload] at h
        exact absurd (congrArg Prod.fst h) (by simp)
    · rw [cachedLoad, hfind] at h
      exact absurd (congrArg Prod.fst h) (by simp)

/-- Witness for C7: on a two-file assets directory and an empty cache, the
first call loads and caches, the second call replays the cached content
with the load counter still at one; a missing identifier fails on a first
and again on a second call, with the cache left empty. -/
theorem cached_load_idempotent_witness :
    cachedLoad ⟨"/app/mcp/assets", [("widget-aaa.html", "AAA"), ("widget-bbb.html", "BBB")]⟩
        "widget" ⟨[("widget", "BBB")], 1⟩ = (.ok "BBB", ⟨[("widget", "BBB")], 1⟩) ∧
    ((cachedLoad ⟨"/app/mcp/assets", [("widget-aaa.html", "AAA"), ("widget-bbb.html", "BBB")]⟩
        "missing" ⟨[], 1⟩).1 = .error (notFoundMessage "missing" "/app/mcp/assets")) :=
  ⟨(cached_load_idempotent
      ⟨"/app/mcp/assets", [("widget-aaa.html", "AAA"), ("widget-bbb.html", "BBB")]⟩
      "widget" ⟨[], 0⟩).1 "BBB" ⟨[("widget", "BBB")], 1⟩ (by rfl),
   ((cached_load_idempotent
      ⟨"/app/mcp/assets", [("widget-aaa.html", "AAA"), ("widget-bbb.html", "BBB")]⟩
      "missing" ⟨[], 0⟩).2 (notFoundMessage "missing" "/app/mcp/assets") ⟨[], 1⟩ (by rfl)).2⟩

/-! The Widget State Store. -/

/-- Modelled from the spec: the `useWidgetState` hook (the Widget State
Store implementation in `web/src/use-widget-state.ts`) is not among the
provided sources — only its callers are (`handleSaveWidgetState` in the
kitchen-sink widget, `handleAddToCart` in the delivery-quick widget).
Following spec section 4.4: the store holds the host-persisted document,
absent before the first write. -/
structure WidgetStateStore where
  state : Option (List (String × JsonVal))

/-- Modelled from the spec: `read()` returns whatever the host currently
holds for this widget instance, absent on first mount. -/
def readWidgetState (store : WidgetStateStore) :
    Option (List (String × JsonVal)) :=
  store.state

/-- Modelled from the spec: `write(updater)` applies the updater to the
current document (or the type's default if absent) and writes the
result. -/
def writeWidgetState (store : WidgetStateStore)
    (defaultDoc : List (String × JsonVal))
    (updater : List (String × JsonVal) → List (String × JsonVal)) :
    WidgetStateStore :=
  { state := some (updater (store.state.getD defaultDoc)) }

/-- The JS object-spread update `{...prev, k: v}` on an
insertion-ordered record: an existing key keeps its position and gets the
new value, a fresh key is appended. -/
def spreadSet (doc : List (String × JsonVal)) (k : String) (v : JsonVal) :
    List (String × JsonVal) :=
  if doc.any (fun p => p.1 == k) then
    doc.map (fun p => if p.1 == k then (p.1, v) else p)
  else doc ++ [(k, v)]

theorem lookupField_override (doc : List (String × JsonVal))
    (k : String) (v : JsonVal) (k' : String) (h : k' ≠ k) :
    lookupField (doc.map (fun p => if p.1 == k then (p.1, v) else p)) k' =
      lookupField doc k' := by
  induction doc with
  | nil => rfl
  | cons p ps ih =>
      by_cases hk : p.1 = k'
      · have hne : p.1 ≠ k := by rw [hk]; exact h
        simp [lookupField, List.find?_cons, hk, hne, h]
      · have hkf : (p.1 == k') = false := by simpa using hk
        simp only [lookupField, List.map_cons, List.find?_cons] at ih ⊢
        have hfst : (if p.1 == k then (p.1, v) else p).1 = p.1 := by
          split <;> rfl
        rw [hfst] at *
        simp [hkf] at ih ⊢
        exact ih

theorem lookupField_spreadSet (doc : List (String × JsonVal))
    (k : String) (v : JsonVal) (k' : String) (h : k' ≠ k) :
    lookupField (spreadSet doc k v) k' = lookupField doc k' := by
  rw [spreadSet]
  by_cases hany : doc.any (fun p => p.1 == k)
  · rw [if_pos hany]
    exact lookupField_override doc k v k' h
  · rw [if_neg hany]
    have hkk' : (k == k') = false := by
      simp [Ne.symm h]
    rw [lookupField, List.find?_append]
    cases hf : doc.find? (fun p => p.1 == k') with
    | none => simp [lookupField, hf, hkk']
    | some q => simp [lookupField, hf]

/-- Claim C8: a write given an updater applies it to the current document
(or the default if absent) and persists the result; in particular on
current document `a:1, b:2` the spread update setting `b:3` reads back as
`a:1, b:3`; and any field other than the updated one is preserved by the
spread update. -/
theorem widget_state_merge_write :
    (∀ (store : WidgetStateStore) (d : List (String × JsonVal))
       (f : List (String × JsonVal) → List (String × JsonVal)),
       readWidgetState (writeWidgetState store d f) =
         some (f (store.state.getD d))) ∧
    (readWidgetState
        (writeWidgetState ⟨some [("a", JsonVal.num 1), ("b", JsonVal.num 2)]⟩ []
          (fun prev => spreadSet prev "b" (JsonVal.num 3))) =
      some [("a", JsonVal.num 1), ("b", JsonVal.num 3)]) ∧
    (∀ (doc : List (String × JsonVal)) (k : String) (v : JsonVal) (k' : String),
       k' ≠ k →
       lookupField (spreadSet doc k v) k' = lookupField doc k') :=
  ⟨fun _ _ _ => rfl, rfl, lookupField_spreadSet⟩

/-- Witness for C8: the field `a`, not mentioned by the updater, survives
the spread update of `b` on the concrete document. -/
theorem widget_state_merge_write_witness :
    lookupField
        (spreadSet [("a", JsonVal.num 1), ("b", JsonVal.num 2)] "b" (JsonVal.num 3)) "a" =
      lookupField [("a", JsonVal.num 1), ("b", JsonVal.num 2)] "a" :=
  widget_state_merge_write.2.2 [("a", JsonVal.num 1), ("b", JsonVal.num 2)]
    "b" (JsonVal.num 3) "a" (by decide)

/-! The delivery-quick widget's cart handlers. -/

/-- A `CartItem` of the delivery-quick widget state. -/
structure CartItem where
  product_id : String
  quantity : Int
deriving DecidableEq, Repr

/-- The `QuickWidgetState` document of the delivery-quick widget. -/
structure QuickWidgetState where
  cart : List CartItem
  favorites : List String
  searchQuery : String
  selectedCategory : Option String
deriving DecidableEq, Repr

/-- `handleAddToCart`: bump the quantity of an existing entry, or append a
fresh entry with quantity 1. -/
def handleAddToCart (productId : String) (prev : QuickWidgetState) :
    QuickWidgetState :=
  let currentCart := prev.cart
  match currentCart.find? (fun item => item.product_id == productId) with
  | some _ =>
      { prev with
        cart := currentCart.map (fun item =>
          if item.product_id == productId then
            { item with quantity := item.quantity + 1 }
          else item) }
  | none =>
      { prev with cart := currentCart ++ [{ product_id := productId, quantity := 1 }] }

/-- `handleRemoveFromCart`: an absent product returns `prev` unchanged; an
entry at quantity 1 is dropped; otherwise the entry's quantity is
decremented. -/
def handleRemoveFromCart (productId : String) (prev : QuickWidgetState) :
    QuickWidgetState :=
  match prev.cart.find? (fun item => item.product_id == productId) with
  | none => prev
  | some existingItem =>
    if existingItem.quantity = 1 then
      { prev with
        cart := prev.cart.filter (fun item => !(item.product_id == productId)) }
    else
      { prev with
        cart := prev.cart.map (fun item =>
          if item.product_id == productId then
            { item with quantity := item.quantity - 1 }
          else item) }

/-- The cart invariant: every entry has quantity at least 1, and product
identifiers are pairwise distinct (at most one entry per product). -/
def CartInvariant (cart : List CartItem) : Prop :=
  (∀ item ∈ cart, 1 ≤ item.quantity) ∧
    (cart.map (fun item => item.product_id)).Nodup

/-- Claim C10: both cart handlers preserve the cart invariant (every entry
has quantity at least 1, at most one entry per product id) — adding bumps
an existing entry or appends a quantity-1 entry, removing decrements or
drops an entry at quantity 1 — and removing a product that is not in the
cart returns the widget state document completely unchanged. -/
theorem cart_operations_invariant (prev : QuickWidgetState) (productId : String)
    (h : CartInvariant prev.cart) :
    CartInvariant (handleAddToCart productId prev).cart ∧
    CartInvariant (handleRemoveFromCart productId prev).cart ∧
    (prev.cart.find? (fun item => item.product_id == productId) = none →
       handleRemoveFromCart productId prev = prev) := by
  obtain ⟨hqty, hnodup⟩ := h
  refine ⟨?_, ?_, ?_⟩
  · rcases hfind : prev.cart.find? (fun item => item.product_id == productId) with _ | item
    · simp only [handleAddToCart, hfind]
      constructor
      · intro it hit
        rcases List.mem_append.mp hit with h1 | h2
        · exact hqty it h1
        · rcases List.mem_singleton.mp h2 with rfl
          norm_num
      · have hnotin : productId ∉ prev.cart.map (fun item => item.product_id) := by
          intro hmem
          rcases List.mem_map.mp hmem with ⟨it, hit, heq⟩
          have := List.find?_eq_none.mp hfind it hit
          simp [heq] at this
        rw [List.map_append]
        refine List.Nodup.append hnodup (by simp) ?_
        intro a ha hb
        rcases List.mem_singleton.mp hb with rfl
        exact hnotin ha
    · simp only [handleAddToCart, hfind]
      constructor
      · intro it hit
        rcases List.mem_map.mp hit with ⟨a, ha, rfl⟩
        have h1 := hqty a ha
        by_cases hp : a.product_id == productId
        · simp only [if_pos hp]
          omega
        · simp only [if_neg hp]
          exact h1
      · have hmapeq :
            (prev.cart.map (fun item =>
                if item.product_id == productId then
                  { item with quantity := item.quantity + 1 }
                else item)).map (fun item => item.product_id) =
              prev.cart.map (fun item => item.product_id) := by
          rw [List.map_map]
          apply List.map_congr_left
          intro a _
          simp only [Function.comp_apply]
          split <;> rfl
        rw [hmapeq]
        exact hnodup
  · rcases hfind : prev.cart.find? (fun item => item.product_id == productId) with _ | item
    · simp only [handleRemoveFromCart, hfind]
      exact ⟨hqty, hnodup⟩
    · have hitem_mem : item ∈ prev.cart := List.mem_of_find?_eq_some hfind
      have hitem_pid : item.product_id = productId := by
        have := List.find?_some hfind
        simpa using this
      by_cases hq1 : item.quantity = 1
      · simp only [handleRemoveFromCart, hfind, if_pos hq1]
        constructor
        · intro it hit
          exact hqty it (List.mem_of_mem_filter hit)
        · exact List.Nodup.sublist ((List.filter_sublist _).map _) hnodup
      · simp only [handleRemoveFromCart, hfind, if_neg hq1]
        constructor
        · intro it hit
          rcases List.mem_map.mp hit with ⟨a, ha, rfl⟩
          have h1 := hqty a ha
          by_cases hp : a.product_id == productId
          · have hpa : a.product_id = productId := by simpa using hp
            have haeq : a = item :=
              List.inj_on_of_nodup_map hnodup ha hitem_mem
                (by rw [hpa, hitem_pid])
            have h2 : a.quantity ≠ 1 := by rw [haeq]; exact hq1
            simp only [if_pos hp]
            omega
          · simp only [if_neg hp]
            exact h1
        · have hmapeq :
              (prev.cart.map (fun item =>
                  if item.product_id == productId then
                    { item with quantity := item.quantity - 1 }
                  else item)).map (fun item => item.product_id) =
                prev.cart.map (fun item => item.product_id) := by
            rw [List.map_map]
            apply List.map_congr_left
            intro a _
            simp only [Function.comp_apply]
            split <;> rfl
          rw [hmapeq]
          exact hnodup
  · intro hfind
    simp [handleRemoveFromCart, hfind]

/-- Witness for C10 on a concrete one-entry cart: removing an absent
product is the identity, and adding preserves the invariant. -/
theorem cart_operations_invariant_witness :
    handleRemoveFromCart "p9"
        { cart := [{ product_id := "p1", quantity := 2 }]
          favorites := []
          searchQuery := ""
          selectedCategory := none } =
      { cart := [{ product_id := "p1", quantity := 2 }]
        favorites := []
        searchQuery := ""
        selectedCategory := none } ∧
    CartInvariant (handleAddToCart "p1"
        { cart := [{ product_id := "p1", quantity := 2 }]
          favorites := []
          searchQuery := ""
          selectedCategory := none }).cart :=
  ⟨(cart_operations_invariant
      { cart := [{ product_id := "p1", quantity := 2 }]
        favorites := []
        searchQuery := ""
        selectedCategory := none } "p9" ⟨by decide, by decide⟩).2.2 (by rfl),
   (cart_operations_invariant
      { cart := [{ product_id := "p1", quantity := 2 }]
        favorites := []
        searchQuery := ""
        selectedCategory := none } "p1" ⟨by decide, by decide⟩).1⟩
